import Mathlib

/-
Verification of the Gemini stock-scanner repository.

The JavaScript sources are shallowly embedded in Lean 4:
- JS numbers are modelled as rationals; a possibly missing (undefined or
  null) value is an Option.  JS comparison operators on a missing operand
  return false, which the o-prefixed helpers reproduce.
- Number.prototype.toFixed is modelled exactly: rounding to d decimal
  digits, ties to the larger value, matching the ECMAScript definition.
- Each embedded module sits in its own namespace:
  AiScoringV1  : first module of server/services/aiScoring.cjs source
  AiScoring    : second (authoritative) module of aiScoring.cjs
  Scanner      : server/controllers/scannerController.cjs
  SubMgr       : server/services/subscriptionManager.cjs
  Technicals   : full utils/technicals.cjs (series indicators)
  TechnicalsUtil : server/utils/technicals.cjs (scalar variants)
  Db           : server/utils/db.cjs
-/

set_option maxHeartbeats 1600000

namespace JsNum

/-- ECMAScript toFixed(d): the result is n / 10^d where n is the integer
closest to x * 10^d, ties resolved to the larger n. -/
def jsToFixed (d : ℕ) (x : ℚ) : ℚ :=
  ((⌊x * 10 ^ d + 1 / 2⌋ : ℤ) : ℚ) / 10 ^ d

/-- JS comparison a > c where a may be undefined (undefined compares false). -/
def oGtC (a : Option ℚ) (c : ℚ) : Bool :=
  match a with
  | some x => decide (c < x)
  | none => false

/-- JS comparison a < c where a may be undefined. -/
def oLtC (a : Option ℚ) (c : ℚ) : Bool :=
  match a with
  | some x => decide (x < c)
  | none => false

/-- JS comparison a >= c where a may be undefined. -/
def oGeC (a : Option ℚ) (c : ℚ) : Bool :=
  match a with
  | some x => decide (c ≤ x)
  | none => false

/-- JS comparison a <= c where a may be undefined. -/
def oLeC (a : Option ℚ) (c : ℚ) : Bool :=
  match a with
  | some x => decide (x ≤ c)
  | none => false

/-- JS comparison a > b where either side may be undefined. -/
def oGtO (a b : Option ℚ) : Bool :=
  match a, b with
  | some x, some y => decide (y < x)
  | _, _ => false

/-- JS comparison a < b where either side may be undefined. -/
def oLtO (a b : Option ℚ) : Bool :=
  match a, b with
  | some x, some y => decide (x < y)
  | _, _ => false

/-- JS truthiness of a numeric value: undefined, null and 0 are falsy. -/
def truthy (a : Option ℚ) : Bool :=
  match a with
  | some x => decide (x ≠ 0)
  | none => false

/-- JS expression (a || d): the left operand if it is truthy, d otherwise. -/
def jsOr (a : Option ℚ) (d : ℚ) : ℚ :=
  match a with
  | some x => if x = 0 then d else x
  | none => d

/-- Array.prototype.slice with the ECMAScript index normalisation:
negative indices count from the end, then both are clamped to [0, len]. -/
def jsSlice {α : Type} (l : List α) (start stop : ℤ) : List α :=
  let n : ℤ := l.length
  let s : ℤ := if start < 0 then max (n + start) 0 else min start n
  let e : ℤ := if stop < 0 then max (n + stop) 0 else min stop n
  (l.take e.toNat).drop s.toNat

end JsNum

namespace AiScoringV1

/-- Source function norm (first aiScoring module): clamped linear
normalisation of x between min and max. -/
def norm (x mn mx : ℚ) : ℚ :=
  if x ≤ mn then 0
  else if mx ≤ x then 1
  else (x - mn) / (mx - mn)

end AiScoringV1

namespace AiScoring

open JsNum

/-- Destructured argument of analyzeSqueezeCandidate and analyzeEarlySetup:
rsi, shortFloat and momentum may be undefined; volumeSpike is only ever
used for its truthiness by these two functions. -/
structure SqueezeInput where
  rsi : Option ℚ
  shortFloat : Option ℚ
  volumeSpike : Bool
  momentum : Option ℚ
deriving DecidableEq, Repr

structure SqueezeResult where
  isCandidate : Bool
  score : ℚ
  reasons : List String
deriving DecidableEq, Repr

structure EarlyResult where
  isEarlyCandidate : Bool
  setupScore : ℚ
  setupReasons : List String
deriving DecidableEq, Repr

/-- Source function analyzeSqueezeCandidate: shortFloat>20 adds 2, rsi<40
adds 1, a truthy volumeSpike adds 2, momentum>0.03 adds 1; candidate when
the score reaches 4. -/
def analyzeSqueezeCandidate (m : SqueezeInput) : SqueezeResult :=
  let score : ℚ :=
    (if oGtC m.shortFloat 20 then 2 else 0) +
    (if oLtC m.rsi 40 then 1 else 0) +
    (if m.volumeSpike then 2 else 0) +
    (if oGtC m.momentum (3 / 100) then 1 else 0)
  let reasons : List String :=
    (if oGtC m.shortFloat 20 then ["High short float"] else []) ++
    (if oLtC m.rsi 40 then ["RSI shows potential bounce"] else []) ++
    (if m.volumeSpike then ["Unusual volume"] else []) ++
    (if oGtC m.momentum (3 / 100) then ["Bullish price momentum"] else [])
  { isCandidate := decide (4 ≤ score), score := score, reasons := reasons }

/-- Source function analyzeEarlySetup: shortFloat>15 adds 2, rsi strictly
between 30 and 45 adds 2, a falsy volumeSpike adds 1, momentum strictly
between 0.01 and 0.03 adds 1; early candidate when the score reaches 4. -/
def analyzeEarlySetup (m : SqueezeInput) : EarlyResult :=
  let score : ℚ :=
    (if oGtC m.shortFloat 15 then 2 else 0) +
    (if oGtC m.rsi 30 && oLtC m.rsi 45 then 2 else 0) +
    (if !m.volumeSpike then 1 else 0) +
    (if oGtC m.momentum (1 / 100) && oLtC m.momentum (3 / 100) then 1 else 0)
  let reasons : List String :=
    (if oGtC m.shortFloat 15 then ["Moderately high short float"] else []) ++
    (if oGtC m.rsi 30 && oLtC m.rsi 45 then ["RSI in early reversal zone"] else []) ++
    (if !m.volumeSpike then ["No volume spike yet - possible accumulation"] else []) ++
    (if oGtC m.momentum (1 / 100) && oLtC m.momentum (3 / 100) then ["Subtle bullish momentum"] else [])
  { isEarlyCandidate := decide (4 ≤ score), setupScore := score, setupReasons := reasons }

/-- Source function norm (second aiScoring module): identical to the first
module except that a null or undefined x normalises to 0. -/
def norm (x : Option ℚ) (mn mx : ℚ) : ℚ :=
  match x with
  | none => 0
  | some v => if v ≤ mn then 0 else if mx ≤ v then 1 else (v - mn) / (mx - mn)

end AiScoring

namespace Scanner

open JsNum AiScoring

/-- Control-flow outcome of analyzeMetrics (scannerController.cjs):
whether a candidate object is returned at all (the pre-screen gate at
step 3 returns null when aiResult.score < 2 and the symbol is not an
early candidate), and whether the GPT advisory call of step 5 is issued
(guarded by aiResult.score >= 2). -/
structure GateOutcome where
  emitted : Bool
  gptAttempted : Bool
deriving DecidableEq, Repr

/-- Embedding of the pre-screen and enrichment control flow of
analyzeMetrics: steps 3 and 5 of the source function. -/
def analyzeMetricsGate (m : SqueezeInput) : GateOutcome :=
  let aiResult := analyzeSqueezeCandidate m
  let setupResult := analyzeEarlySetup m
  if aiResult.score < 2 ∧ setupResult.isEarlyCandidate = false then
    { emitted := false, gptAttempted := false }
  else
    { emitted := true, gptAttempted := decide (2 ≤ aiResult.score) }

end Scanner

namespace SubMgr

/-- Side effect issued against the finnhub stream: a subscribe or an
unsubscribe call.  The unsubscribe payload is an Option because evicting
from an empty queue passes undefined to wsUnsubscribe. -/
inductive Eff where
  | sub (symbol : String)
  | unsub (symbol : Option String)
deriving DecidableEq, Repr

/-- State of the SubscriptionManager class: capacity limit, queue of
symbols oldest first, and the membership Set (modelled as the list of its
elements in insertion order). -/
structure SMState where
  limit : ℕ
  queue : List String
  sset : List String
deriving DecidableEq, Repr

/-- Fresh manager, as built by the constructor. -/
def smEmpty (limit : ℕ) : SMState :=
  { limit := limit, queue := [], sset := [] }

/-- Source method touch: remove the first occurrence of the symbol from
the queue if present, then push it to the back. -/
def touch (st : SMState) (symbol : String) : SMState :=
  let q := if symbol ∈ st.queue then st.queue.erase symbol else st.queue
  { st with queue := q ++ [symbol] }

/-- Set.add of the JS runtime: append if absent. -/
def setAdd (s : List String) (x : String) : List String :=
  if x ∈ s then s else s ++ [x]

/-- The at-capacity branch of ensure: shift the oldest symbol off the
queue, delete it from the set and issue the unsubscribe call; the source
swallows an unsubscribe failure, so the state does not depend on it.  On
an empty queue, shift yields undefined: the containers are unchanged and
the unsubscribe call carries no symbol. -/
def evictIfFull (st : SMState) : SMState × List Eff :=
  if st.limit ≤ st.queue.length then
    match st.queue with
    | [] => (st, [Eff.unsub none])
    | oldest :: rest =>
        ({ st with queue := rest, sset := st.sset.erase oldest },
         [Eff.unsub (some oldest)])
  else (st, [])

/-- The subscribe step of ensure: the wsSubscribe call is issued; only
when it succeeds (subOk) are the set and queue extended. -/
def subscribeNew (subOk : Bool) (st : SMState) (symbol : String) (effs : List Eff) :
    SMState × List Eff :=
  if subOk then
    ({ st with sset := setAdd st.sset symbol, queue := st.queue ++ [symbol] },
     effs ++ [Eff.sub symbol])
  else
    (st, effs ++ [Eff.sub symbol])

/-- Source method ensure.  subOk tells whether the wsSubscribe call
succeeds; unsubOk tells whether the wsUnsubscribe call succeeds and is
unused because the source wraps that call in try/catch and proceeds
either way.  Returns the new state plus the stream calls that were
issued. -/
def ensure (subOk : Bool) (unsubOk : Bool) (st : SMState) (symbol : String) :
    SMState × List Eff :=
  if symbol ∈ st.sset then
    (touch st symbol, [])
  else
    let evicted := evictIfFull st
    subscribeNew subOk evicted.1 symbol evicted.2

/-- Run a call sequence from a state; each call is a symbol together with
the success of its wsSubscribe and wsUnsubscribe attempts. -/
def applyCalls (st : SMState) : List (String × Bool × Bool) → SMState
  | [] => st
  | (symbol, subOk, unsubOk) :: rest =>
      applyCalls (ensure subOk unsubOk st symbol).1 rest

/-- The SubscriptionSet invariant of the specification: both containers
duplicate free, equal sizes, identical membership, size within the
capacity limit. -/
def Inv (st : SMState) : Prop :=
  st.queue.Nodup ∧ st.sset.Nodup ∧ st.queue.length = st.sset.length ∧
    (∀ x, x ∈ st.queue ↔ x ∈ st.sset) ∧ st.queue.length ≤ st.limit

end SubMgr

namespace Technicals

open JsNum

/-- Successive deltas prices[i] - prices[i-1] for i from 1, as built by the
RSI and ATR loops. -/
def deltas (prices : List ℚ) : List ℚ :=
  List.zipWith (fun a b => a - b) prices.tail prices

/-- One step of the Wilder smoothing loop of calculateRSI: updates the
pair (avgGain, avgLoss) with the next price change. -/
def wilderStep (period : ℕ) (s : ℚ × ℚ) (c : ℚ) : ℚ × ℚ :=
  ((s.1 * ((period : ℚ) - 1) + (if 0 < c then c else 0)) / period,
   (s.2 * ((period : ℚ) - 1) + (if c < 0 then -c else 0)) / period)

/-- RSI value written for a pair of smoothed averages: 100 when the
average loss is 0, otherwise 100 - 100/(1+rs) rounded to 2 decimals. -/
def rsiVal (s : ℚ × ℚ) : ℚ :=
  if s.2 = 0 then 100
  else jsToFixed 2 (100 - 100 / (1 + s.1 / s.2))

/-- Source function calculateRSI of utils/technicals.cjs (series form):
null for the first period indices, then the simple-average seed value at
index period, then Wilder smoothing. -/
def calculateRSI (prices : List ℚ) (period : ℕ) : List (Option ℚ) :=
  if prices.length < period + 1 then []
  else
    let ds := deltas prices
    let d0 := ds.take period
    let gains := (d0.map (fun c => if 0 ≤ c then c else 0)).sum
    let losses := (d0.map (fun c => if 0 ≤ c then 0 else -c)).sum
    let states := (ds.drop period).scanl (wilderStep period) (gains / period, losses / period)
    List.replicate period none ++ states.map (fun s => some (rsiVal s))

/-- Source function calculateMomentum of utils/technicals.cjs: change of
the last close over the previous close, rounded to 4 decimals. -/
def calculateMomentum (prices : List ℚ) : ℚ :=
  if prices.length < 2 then 0
  else
    let lastClose := prices.getD (prices.length - 1) 0
    let prevClose := prices.getD (prices.length - 2) 0
    jsToFixed 4 ((lastClose - prevClose) / prevClose)

/-- Source function calculateEMA: empty below period, else nulls up to
index period-2, the simple-average seed at index period-1, then the
exponential recurrence with k = 2/(period+1). -/
def calculateEMA (arr : List ℚ) (period : ℕ) : List (Option ℚ) :=
  if arr.length < period then []
  else
    let k : ℚ := 2 / ((period : ℚ) + 1)
    let seed := (arr.take period).sum / period
    List.replicate (period - 1) none ++
      ((arr.drop period).scanl (fun prev price => price * k + prev * (1 - k)) seed).map some

structure MACDResult where
  macdLine : List (Option ℚ)
  signalLine : List (Option ℚ)
deriving DecidableEq, Repr

/-- Source function calculateMACD: EMA12 minus EMA26 pointwise with null
propagation, and an EMA9 of the non-null portion of the MACD line padded
back to full length with nulls on the left. -/
def calculateMACD (prices : List ℚ) : MACDResult :=
  if prices.length < 26 then { macdLine := [], signalLine := [] }
  else
    let ema12 := calculateEMA prices 12
    let ema26 := calculateEMA prices 26
    let macdLine := (List.range prices.length).map (fun idx =>
      match ema12.getD idx none, ema26.getD idx none with
      | some a, some b => some (a - b)
      | _, _ => none)
    let validMacd := macdLine.filterMap id
    let signalRaw := calculateEMA validMacd 9
    let paddedSignal := List.replicate (macdLine.length - signalRaw.length) none ++ signalRaw
    { macdLine := macdLine, signalLine := paddedSignal }

/-- True range of one bar given its high, its low and the previous close. -/
def trueRange (h l pc : ℚ) : ℚ :=
  max (h - l) (max |h - pc| |l - pc|)

/-- Source function calculateATR.  The source loop reads highs[i], lows[i]
and closes[i-1] under the documented contract that the three arrays have
one common length; the zip realises exactly that access pattern. -/
def calculateATR (highs lows closes : List ℚ) (period : ℕ) : List (Option ℚ) :=
  if highs.length < period + 1 ∨ lows.length < period + 1 ∨ closes.length < period + 1 then []
  else
    let tr := List.zipWith (fun hl pc => trueRange hl.1 hl.2 pc)
      (List.zipWith (fun h l => (h, l)) highs.tail lows.tail) closes
    let initialAvg := (tr.take period).sum / period
    let states := (tr.drop period).scanl
      (fun prev trv => (prev * ((period : ℚ) - 1) + trv) / period) initialAvg
    List.replicate period none ++ states.map some

structure Band where
  middle : Option ℚ
  upper : Option ℚ
  lower : Option ℚ
deriving DecidableEq, Repr

/-- Math.sqrt stand-in on rationals: floor integer square root of the
scaled numerator.  Bollinger bands are only ever examined here for the
shape of the output, which does not depend on the root itself. -/
def ratSqrt (q : ℚ) : ℚ :=
  (Nat.sqrt (q.num.toNat * q.den) : ℚ) / q.den

/-- Source function calculateBollingerBands: empty below period, else one
entry per input index, null-filled until index period-1, then rolling
mean plus-minus stdDevFactor times the population standard deviation. -/
def calculateBollingerBands (prices : List ℚ) (period : ℕ) (stdDevFactor : ℚ) : List Band :=
  if prices.length < period then []
  else
    (List.range prices.length).map (fun i =>
      if i < period - 1 then { middle := none, upper := none, lower := none }
      else
        let slice := jsSlice prices ((i : ℤ) - period + 1) (i + 1)
        let mean := slice.sum / period
        let variance := (slice.map (fun v => (v - mean) * (v - mean))).sum / period
        let sd := ratSqrt variance
        { middle := some mean,
          upper := some (mean + stdDevFactor * sd),
          lower := some (mean - stdDevFactor * sd) })

structure Channel where
  donchianHigh : Option ℚ
  donchianLow : Option ℚ
deriving DecidableEq, Repr

/-- Source function calculateDonchian: empty when either array is shorter
than period, else one entry per high index, null-filled until index
period-1, then rolling max of highs and min of lows. -/
def calculateDonchian (highs lows : List ℚ) (period : ℕ) : List Channel :=
  if highs.length < period ∨ lows.length < period then []
  else
    (List.range highs.length).map (fun i =>
      if i < period - 1 then { donchianHigh := none, donchianLow := none }
      else
        let highSlice := jsSlice highs ((i : ℤ) - period + 1) (i + 1)
        let lowSlice := jsSlice lows ((i : ℤ) - period + 1) (i + 1)
        { donchianHigh := highSlice.max?, donchianLow := lowSlice.min? })

end Technicals

namespace TechnicalsUtil

open JsNum

/-- Source function calculateRSI of server/utils/technicals.cjs: a single
scalar value from the first period deltas. -/
def calculateRSI (prices : List ℚ) (period : ℕ) : Option ℚ :=
  if prices.length < period + 1 then none
  else
    let d0 := (Technicals.deltas prices).take period
    let gains := (d0.map (fun c => if 0 ≤ c then c else 0)).sum
    let losses := (d0.map (fun c => if 0 ≤ c then 0 else -c)).sum
    let avgGain := gains / period
    let avgLoss := losses / period
    if avgLoss = 0 then some 100
    else some (jsToFixed 2 (100 - 100 / (1 + avgGain / avgLoss)))

/-- Source function calculateMomentum of server/utils/technicals.cjs: it
reads prices[0] and prices[1], the first two entries, not the last two. -/
def calculateMomentum (prices : List ℚ) : ℚ :=
  match prices with
  | p0 :: p1 :: _ => jsToFixed 4 ((p0 - p1) / p1)
  | _ => 0

end TechnicalsUtil

namespace AiScoring

open JsNum

/-- Destructured argument object of scoreTicker.  Scalar fields may be
undefined; the four indicator arrays ema10, ema50, macdLine, signalLine
are dereferenced without a guard by the source and are therefore an outer
Option (none meaning the property is absent), while atr14, bollinger and
donchian sit behind Array.isArray guards. -/
structure TickerData where
  price : Option ℚ
  avg20Volume : Option ℚ
  volume : Option ℚ
  volumeSpike : Option ℚ
  rsi : Option ℚ
  momentum : Option ℚ
  support : Option ℚ
  resistance : Option ℚ
  floatPercent : Option ℚ
  shortPercent : Option ℚ
  daysToCover : Option ℚ
  ema10 : Option (List (Option ℚ))
  ema50 : Option (List (Option ℚ))
  macdLine : Option (List (Option ℚ))
  signalLine : Option (List (Option ℚ))
  atr14 : Option (List (Option ℚ))
  bollinger : Option (List Technicals.Band)
  donchian : Option (List Technicals.Channel)
  revenueGrowth : Option ℚ
  debtToEquity : Option ℚ
  epsTrailingTwelveMonths : Option ℚ
  newsCount : Option ℚ
  socialSentiment : Option ℚ
  preMarketChange : Option ℚ
  preMarketVolSpike : Option ℚ
deriving DecidableEq, Repr

/-- The sub-score map returned under the metrics key of scoreTicker. -/
structure Metrics where
  volScore : ℚ
  spikeScore : ℚ
  rsiScore : ℚ
  momScore : ℚ
  floatScore : ℚ
  shortScore : ℚ
  breakout : Bool
  bounce : Bool
  emaScore : ℚ
  macdScore : ℚ
  atrScore : ℚ
  bollScore : ℚ
  donchScore : ℚ
  fundScore : ℚ
  newsScore : ℚ
  sentimentScore : ℚ
  preMktScore : ℚ
  preMktVolScore : ℚ
deriving DecidableEq, Repr

/-- Return object of scoreTicker.  The human-readable reason strings are
pure string formatting of the sub-scores and are not modelled. -/
structure ScoreOutput where
  totalScore : ℚ
  isTopPick : Bool
  squeeze : SqueezeResult
  early : EarlyResult
  metrics : Metrics
deriving DecidableEq, Repr

/-- Step 4 of scoreTicker: EMA crossover and trend score from the last
two entries of the EMA10 and EMA50 arrays. -/
def emaScoreOf (e10 e50 : List (Option ℚ)) : ℚ :=
  let lenEma := min e10.length e50.length
  if 2 ≤ lenEma then
    let i := lenEma - 1
    match e10.getD i none, e50.getD i none with
    | some c10, some c50 =>
        (if c50 < c10 then 1 else 0) +
        (match e10.getD (i - 1) none, e50.getD (i - 1) none with
         | some p10, some p50 => if p10 ≤ p50 ∧ c50 < c10 then 2 else 0
         | _, _ => 0)
    | _, _ => 0
  else 0

/-- Step 5 of scoreTicker: MACD histogram score from the last two entries
of the MACD and signal arrays. -/
def macdScoreOf (ml sl : List (Option ℚ)) : ℚ :=
  let lenMacd := min ml.length sl.length
  if 2 ≤ lenMacd then
    let i := lenMacd - 1
    match ml.getD i none, sl.getD i none with
    | some cM, some cS =>
        (if 0 < cM - cS then 1 else 0) +
        (match ml.getD (i - 1) none, sl.getD (i - 1) none with
         | some pM, some pS => if pM - pS ≤ 0 ∧ 0 < cM - cS then 2 else 0
         | _, _ => 0)
    | _, _ => 0
  else 0

/-- Step 6 of scoreTicker: ATR regime score.  When atr14 has exactly 30
entries, the slice of prior values is empty and avgAtr30 is NaN in JS, so
both comparisons fail and the score is 0; the model returns 0 directly in
that case. -/
def atrScoreOf (atr14 : Option (List (Option ℚ))) : ℚ :=
  match atr14 with
  | some atr =>
      if 30 ≤ atr.length then
        match atr.getD (atr.length - 1) none with
        | some latest =>
            let sliceAtr := jsSlice atr ((atr.length : ℤ) - 31) ((atr.length : ℤ) - 1)
            if sliceAtr.length = 0 then 0
            else
              let avgAtr30 := (sliceAtr.map (fun v => jsOr v 0)).sum / sliceAtr.length
              (if 0 < avgAtr30 then norm (some latest) (avgAtr30 * (4 / 5)) (avgAtr30 * (6 / 5)) else 0) +
              (if avgAtr30 * (3 / 2) < latest then 1 else 0)
        | none => 0
      else 0
  | none => 0

/-- Step 7 of scoreTicker: Bollinger band breakout score from the last
band entry. -/
def bollScoreOf (bollinger : Option (List Technicals.Band)) (price : Option ℚ) : ℚ :=
  match bollinger with
  | some bs =>
      match bs.getLast? with
      | some b =>
          match b.upper, b.lower with
          | some u, some lo =>
              if oGtO price (some u) then 2
              else if oLtO price (some lo) then 1 else 0
          | _, _ => 0
      | none => 0
  | none => 0

/-- Step 8 of scoreTicker: Donchian channel breakout score from the last
channel entry. -/
def donchScoreOf (donchian : Option (List Technicals.Channel)) (price : Option ℚ) : ℚ :=
  match donchian with
  | some ds =>
      match ds.getLast? with
      | some c =>
          match c.donchianHigh, c.donchianLow with
          | some hi, some lo =>
              if oGtO price (some hi) then 2
              else if oLtO price (some lo) then 1 else 0
          | _, _ => 0
      | none => 0
  | none => 0

/-- Step 9 of scoreTicker: fundamental score from revenue growth, EPS and
debt-to-equity, each guarded by a typeof number check. -/
def fundScoreOf (rg de eps : Option ℚ) : ℚ :=
  (match rg, eps with
   | some g, some e =>
       if 10 ≤ g ∧ 0 < e then 2
       else if 10 ≤ g ∨ 0 < e then 1 else 0
   | _, _ => 0) +
  (match de with
   | some v => if v < 1 / 2 then 2 else if v < 1 then 1 else if 2 < v then -1 else 0
   | none => 0)

/-- Step 10 of scoreTicker, news part. -/
def newsScoreOf (nc : Option ℚ) : ℚ :=
  match nc with
  | some n => if 10 ≤ n then 1 else norm (some n) 0 10
  | none => 0

/-- Step 10 of scoreTicker, sentiment part. -/
def sentimentScoreOf (s : Option ℚ) : ℚ :=
  match s with
  | some v => (if 0 < v then norm (some v) 0 1 else 0) + (if v < -(3 / 10) then -1 else 0)
  | none => 0

/-- Step 11 of scoreTicker, pre-market change part. -/
def preMktScoreOf (c : Option ℚ) : ℚ :=
  match c with
  | some v => if 5 ≤ v then 1 else norm (some v) 2 5
  | none => 0

/-- Step 11 of scoreTicker, pre-market volume part. -/
def preMktVolScoreOf (v : Option ℚ) : ℚ :=
  match v with
  | some x => if 5 ≤ x then 2 else if 3 ≤ x then 1 else 0
  | none => 0

/-- Source function scoreTicker (second aiScoring module).  Reading the
length of an absent ema10, ema50, macdLine or signalLine raises a
TypeError in JS, which the Except models; every other step is total. -/
def scoreTicker (d : TickerData) : Except String ScoreOutput :=
  let squeeze := analyzeSqueezeCandidate
    { rsi := d.rsi, shortFloat := d.shortPercent,
      volumeSpike := truthy d.volumeSpike, momentum := d.momentum }
  let early := analyzeEarlySetup
    { rsi := d.rsi, shortFloat := d.shortPercent,
      volumeSpike := truthy d.volumeSpike, momentum := d.momentum }
  let volScore := norm d.volume (jsOr d.avg20Volume 0 * (3 / 2)) (jsOr d.avg20Volume 1 * 5)
  let spikeScore := if truthy d.volumeSpike then
      norm d.volume (jsOr d.avg20Volume 1 * (3 / 2)) (jsOr d.avg20Volume 1 * 4)
    else 0
  let rsiScore : ℚ :=
    match d.rsi with
    | some r => if r < 40 then (40 - r) / 20 else if 75 < r then -1 else 0
    | none => 0
  let momScore := norm d.momentum 0 (1 / 10)
  let floatScore : ℚ :=
    if oGeC d.floatPercent 1 && oLeC d.floatPercent 10 then 1
    else if oGtC d.floatPercent 10 && oLeC d.floatPercent 50 then 1 / 2
    else 0
  let shortScore : ℚ := if oGeC d.shortPercent 15 && oGeC d.daysToCover 5 then 1 else 0
  let breakout := oGtO d.price d.resistance && oGtC d.volumeSpike (3 / 2)
  let bounce := oGtO d.price d.support && oGtC d.volumeSpike 1
  match d.ema10, d.ema50 with
  | some e10, some e50 =>
      let emaScore := emaScoreOf e10 e50
      match d.macdLine, d.signalLine with
      | some ml, some sl =>
          let macdScore := macdScoreOf ml sl
          let atrScore := atrScoreOf d.atr14
          let bollScore := bollScoreOf d.bollinger d.price
          let donchScore := donchScoreOf d.donchian d.price
          let fundScore := fundScoreOf d.revenueGrowth d.debtToEquity d.epsTrailingTwelveMonths
          let newsScore := newsScoreOf d.newsCount
          let sentimentScore := sentimentScoreOf d.socialSentiment
          let preMktScore := preMktScoreOf d.preMarketChange
          let preMktVolScore := preMktVolScoreOf d.preMarketVolSpike
          let totalScore :=
            squeeze.score + early.setupScore +
            2 * spikeScore + 1 * volScore + (3 / 2) * momScore + 1 * rsiScore +
            1 * floatScore + 1 * shortScore +
            2 * (if breakout then (1 : ℚ) else 0) + 2 * (if bounce then (1 : ℚ) else 0) +
            1 * emaScore + 1 * macdScore + 1 * atrScore +
            2 * bollScore + 2 * donchScore +
            fundScore + newsScore + sentimentScore + preMktScore + preMktVolScore
          Except.ok
            { totalScore := totalScore,
              isTopPick := decide (8 ≤ totalScore),
              squeeze := squeeze,
              early := early,
              metrics :=
                { volScore := volScore, spikeScore := spikeScore, rsiScore := rsiScore,
                  momScore := momScore, floatScore := floatScore, shortScore := shortScore,
                  breakout := breakout, bounce := bounce, emaScore := emaScore,
                  macdScore := macdScore, atrScore := atrScore, bollScore := bollScore,
                  donchScore := donchScore, fundScore := fundScore, newsScore := newsScore,
                  sentimentScore := sentimentScore, preMktScore := preMktScore,
                  preMktVolScore := preMktVolScore } }
      | _, _ => Except.error "TypeError: reading length of undefined"
  | _, _ => Except.error "TypeError: reading length of undefined"

end AiScoring

namespace Db

/-- One persisted row of the squeezeCandidates table: the sanitized item
payload together with the cycle timestamp bound by saveResults. -/
structure CandRow (α : Type) where
  item : α
  timestamp : String
deriving DecidableEq, Repr

/-- The two tables touched by saveResults. -/
structure DBState (α : Type) where
  candidates : List (CandRow α)
  history : List (String × ℕ)
deriving DecidableEq, Repr

/-- One insertCandidate.run call inside the transaction: appends the row
stamped with the shared cycle timestamp, or raises, the failure modelled
by the oracle fail. -/
def insertCandidate {α : Type} (fail : α → Bool) (now : String) (item : α)
    (db : DBState α) : Except String (DBState α) :=
  if fail item then Except.error "SqliteError"
  else Except.ok { db with candidates := db.candidates ++ [{ item := item, timestamp := now }] }

/-- The loop over items inside the transaction body. -/
def insertAll {α : Type} (fail : α → Bool) (now : String) :
    List α → DBState α → Except String (DBState α)
  | [], db => Except.ok db
  | item :: rest, db =>
      match insertCandidate fail now item db with
      | Except.ok db1 => insertAll fail now rest db1
      | Except.error e => Except.error e

/-- The insertHistory.run call that closes the transaction body. -/
def insertHistory {α : Type} (failHist : Bool) (now : String) (count : ℕ)
    (db : DBState α) : Except String (DBState α) :=
  if failHist then Except.error "SqliteError"
  else Except.ok { db with history := db.history ++ [(now, count)] }

/-- db.transaction of better-sqlite3: the body runs inside one SQLite
transaction; if it throws, every change is rolled back and the error is
rethrown, so an error result leaves the caller with the original state. -/
def transaction {α : Type} (body : DBState α → Except String (DBState α))
    (db : DBState α) : Except String (DBState α) :=
  body db

/-- Source function saveResults of server/utils/db.cjs: one transaction
holding one insert per item, all stamped with the single timestamp now,
followed by the history row. -/
def saveResults {α : Type} (fail : α → Bool) (failHist : Bool) (now : String)
    (items : List α) (db : DBState α) : Except String (DBState α) :=
  transaction (fun d =>
    match insertAll fail now items d with
    | Except.ok d1 => insertHistory failHist now items.length d1
    | Except.error e => Except.error e) db

/-- The persistence step of runFullScan (scannerController.cjs): the call
to saveResults sits in a try/catch whose catch arm only logs the error,
so a failure leaves the database untouched and sets the logged flag. -/
def runPersistPhase {α : Type} (fail : α → Bool) (failHist : Bool) (now : String)
    (items : List α) (db : DBState α) : DBState α × Bool :=
  match saveResults fail failHist now items db with
  | Except.ok db1 => (db1, false)
  | Except.error _ => (db, true)

end Db

namespace Scanner

/-- Merged fundamentals object; the three properties scoreTicker and the
candidate consumer read from it. -/
structure Fundamentals where
  revenueGrowth : Option ℚ
  debtEquity : Option ℚ
  epsTrailingTwelveMonths : Option ℚ
deriving DecidableEq, Repr

/-- The candidate object returned by analyzeMetrics (step 6 of the source
function).  The eight option-analysis properties are not part of this
object when it is created: they are assigned by phase 3 of runFullScan,
hence the Option fields starting at callPick, all none at creation. -/
structure Candidate where
  symbol : String
  price : Option ℚ
  volume : Option ℚ
  rsi : Option ℚ
  momentum : Option ℚ
  volumeSpike : Option ℚ
  support : Option ℚ
  resistance : Option ℚ
  floatPercent : Option ℚ
  shortFloat : Option ℚ
  preMarketChange : Option ℚ
  preMarketVolSpike : Option ℚ
  ema10 : List (Option ℚ)
  ema50 : List (Option ℚ)
  macdLine : List (Option ℚ)
  signalLine : List (Option ℚ)
  atr14 : List (Option ℚ)
  bollinger : List Technicals.Band
  donchian : List Technicals.Channel
  fundamentals : Fundamentals
  avg20Volume : Option ℚ
  daysToCover : Option ℚ
  score : ℚ
  earlyCandidate : Bool
  setupScore : ℚ
  suggestion : String
  summary : String
  action : String
  actionRationale : String
  buyPrice : Option ℚ
  sellPrice : Option ℚ
  isDayTradeCandidate : Bool
  dayTradeBuyPrice : Option ℚ
  dayTradeSellPrice : Option ℚ
  longBuyPrice : Option ℚ
  longSellPrice : Option ℚ
  reasons : String
  setupReasons : String
  totalScore : ℚ
  combinedReasons : String
  metrics : AiScoring.Metrics
  isTopPick : Bool
  callPick : Option String
  callAction : Option String
  callRationale : Option String
  callExitPlan : Option String
  putPick : Option String
  putAction : Option String
  putRationale : Option String
  putExitPlan : Option String
deriving DecidableEq, Repr

/-- Destructured result of analyzeOptionsWithGPT consumed by phase 3 of
runFullScan; each property may itself be absent from the GPT reply. -/
structure OptionsResult where
  callPick : Option String
  callAction : Option String
  callRationale : Option String
  callExitPlan : Option String
  putPick : Option String
  putAction : Option String
  putRationale : Option String
  putExitPlan : Option String
deriving DecidableEq, Repr

/-- Phase 3 of runFullScan, success path: the eight property assignments
candidate.callPick = callPick through candidate.putExitPlan = putExitPlan
performed on the candidate object in place. -/
def injectOptions (c : Candidate) (o : OptionsResult) : Candidate :=
  { c with
    callPick := o.callPick,
    callAction := o.callAction,
    callRationale := o.callRationale,
    callExitPlan := o.callExitPlan,
    putPick := o.putPick,
    putAction := o.putAction,
    putRationale := o.putRationale,
    putExitPlan := o.putExitPlan }

/-- Phase 3 of runFullScan for one candidate: when analyzeOptionsWithGPT
succeeds its result is assigned onto the candidate; when it throws, the
catch arm logs and leaves the candidate as it was. -/
def optionsPhaseStep (gptResult : Option OptionsResult) (c : Candidate) : Candidate :=
  match gptResult with
  | some o => injectOptions c o
  | none => c

end Scanner

namespace AiScoring

/-- Ticker data with every property absent, as when scoreTicker is called
on an empty object. -/
def emptyTicker : TickerData :=
  { price := none, avg20Volume := none, volume := none, volumeSpike := none,
    rsi := none, momentum := none, support := none, resistance := none,
    floatPercent := none, shortPercent := none, daysToCover := none,
    ema10 := none, ema50 := none, macdLine := none, signalLine := none,
    atr14 := none, bollinger := none, donchian := none,
    revenueGrowth := none, debtToEquity := none, epsTrailingTwelveMonths := none,
    newsCount := none, socialSentiment := none,
    preMarketChange := none, preMarketVolSpike := none }

/-- Ticker data whose four indicator arrays are present (empty arrays)
while every scalar component is absent. -/
def arraysOnlyTicker : TickerData :=
  { emptyTicker with
    ema10 := some [], ema50 := some [], macdLine := some [], signalLine := some [] }

end AiScoring

namespace Scanner

/-- A zeroed sub-score map for building concrete candidates. -/
def zeroMetrics : AiScoring.Metrics :=
  { volScore := 0, spikeScore := 0, rsiScore := 0, momScore := 0, floatScore := 0,
    shortScore := 0, breakout := false, bounce := false, emaScore := 0, macdScore := 0,
    atrScore := 0, bollScore := 0, donchScore := 0, fundScore := 0, newsScore := 0,
    sentimentScore := 0, preMktScore := 0, preMktVolScore := 0 }

/-- A concrete candidate as produced by the scoring phase: the eight
option-analysis fields are still absent. -/
def sampleCandidate : Candidate :=
  { symbol := "AAA", price := some 10, volume := some 1000, rsi := some 35,
    momentum := some (1 / 20), volumeSpike := some 2, support := some 9,
    resistance := some 11, floatPercent := some 5, shortFloat := some 25,
    preMarketChange := none, preMarketVolSpike := none,
    ema10 := [], ema50 := [], macdLine := [], signalLine := [], atr14 := [],
    bollinger := [], donchian := [],
    fundamentals := { revenueGrowth := none, debtEquity := none,
                      epsTrailingTwelveMonths := none },
    avg20Volume := some 500, daysToCover := some 6, score := 6,
    earlyCandidate := false, setupScore := 2, suggestion := "watch",
    summary := "summary", action := "Buy", actionRationale := "rationale",
    buyPrice := some 9, sellPrice := some 11, isDayTradeCandidate := false,
    dayTradeBuyPrice := none, dayTradeSellPrice := none, longBuyPrice := none,
    longSellPrice := none, reasons := "High short float", setupReasons := "",
    totalScore := 9, combinedReasons := "", metrics := zeroMetrics,
    isTopPick := true, callPick := none, callAction := none, callRationale := none,
    callExitPlan := none, putPick := none, putAction := none, putRationale := none,
    putExitPlan := none }

/-- A concrete options-analysis result assigned by phase 3. -/
def sampleOptions : OptionsResult :=
  { callPick := some "AAA 2025-01-17 C12", callAction := some "Buy",
    callRationale := some "cheap premium", callExitPlan := some "sell at 2x",
    putPick := some "AAA 2025-01-17 P8", putAction := some "Hold",
    putRationale := some "hedge", putExitPlan := some "exit on bounce" }

end Scanner


/-- Helper: a map whose function is constant on the list is a replicate. -/
theorem list_map_const {α β : Type} (l : List α) (f : α → β) (c : β)
    (h : ∀ x ∈ l, f x = c) : l.map f = List.replicate l.length c := by
  induction l with
  | nil => rfl
  | cons a t ih =>
      simp only [List.map_cons, List.length_cons, List.replicate_succ]
      rw [h a (List.mem_cons_self a t), ih (fun x hx => h x (List.mem_cons_of_mem a hx))]

/-- C7: with min < max, norm is 0 at or below min, 1 at or above max, the
exact linear interpolation strictly inside, monotone non-decreasing, and
the null-guarded second version agrees with it on every non-null input. -/
theorem norm_spec (mn mx : ℚ) (h : mn < mx) :
    (∀ x, x ≤ mn → AiScoringV1.norm x mn mx = 0) ∧
    (∀ x, mx ≤ x → AiScoringV1.norm x mn mx = 1) ∧
    (∀ x, mn < x → x < mx → AiScoringV1.norm x mn mx = (x - mn) / (mx - mn)) ∧
    (∀ x y, x ≤ y → AiScoringV1.norm x mn mx ≤ AiScoringV1.norm y mn mx) ∧
    (∀ x, AiScoring.norm (some x) mn mx = AiScoringV1.norm x mn mx) := by
  have hden : 0 < mx - mn := sub_pos.2 h
  refine ⟨?_, ?_, ?_, ?_, fun x => rfl⟩
  · intro x hx
    simp [AiScoringV1.norm, hx]
  · intro x hx
    have hx2 : ¬ x ≤ mn := not_le.2 (lt_of_lt_of_le h hx)
    simp [AiScoringV1.norm, hx2, hx]
  · intro x h1 h2
    simp [AiScoringV1.norm, not_le.2 h1, not_le.2 h2]
  · intro x y hxy
    unfold AiScoringV1.norm
    by_cases hx1 : x ≤ mn
    · rw [if_pos hx1]
      split_ifs with hy1 hy2
      · exact le_refl 0
      · exact zero_le_one
      · have hy := not_le.1 hy1
        have hden2 : 0 < mx - mn := sub_pos.2 h
        exact div_nonneg (by linarith) (le_of_lt hden2)
    · by_cases hx2 : mx ≤ x
      · have hy2 : mx ≤ y := le_trans hx2 hxy
        have hy1 : ¬ y ≤ mn := not_le.2 (lt_of_lt_of_le h hy2)
        rw [if_neg hx1, if_pos hx2, if_neg hy1, if_pos hy2]
      · have hy1 : ¬ y ≤ mn := not_le.2 (lt_of_lt_of_le (not_le.1 hx1) hxy)
        by_cases hy2 : mx ≤ y
        · rw [if_neg hx1, if_neg hx2, if_neg hy1, if_pos hy2]
          rw [div_le_one hden]
          have := not_le.1 hx2
          linarith
        · rw [if_neg hx1, if_neg hx2, if_neg hy1, if_neg hy2]
          gcongr

/-- Witness for norm_spec at min 0, max 4. -/
theorem norm_spec_witness :
    AiScoringV1.norm 0 0 4 = 0 ∧ AiScoringV1.norm 5 0 4 = 1 ∧
    AiScoringV1.norm 1 0 4 = (1 - 0) / (4 - 0) ∧
    AiScoringV1.norm 1 0 4 ≤ AiScoringV1.norm 3 0 4 := by
  obtain ⟨h0, h1, hmid, hmono, _⟩ := norm_spec 0 4 (by norm_num)
  exact ⟨h0 0 le_rfl, h1 5 (by norm_num), hmid 1 (by norm_num) (by norm_num),
    hmono 1 3 (by norm_num)⟩

/-- C1 counterexample: rsi 35, shortFloat 16, no volume spike, momentum
0.02 gives squeezeScore 1 < 2 but earlySetupScore 6, so the symbol passes
the gate and a candidate is emitted, yet the GPT advisory call is not
attempted: enrichment is not attempted exactly when the gate passes. -/
theorem analyzeMetrics_gate_counterexample :
    (Scanner.analyzeMetricsGate
        { rsi := some 35, shortFloat := some 16, volumeSpike := false,
          momentum := some (1 / 50) }).emitted = true ∧
    (Scanner.analyzeMetricsGate
        { rsi := some 35, shortFloat := some 16, volumeSpike := false,
          momentum := some (1 / 50) }).gptAttempted = false := by
  norm_num [Scanner.analyzeMetricsGate, AiScoring.analyzeSqueezeCandidate,
    AiScoring.analyzeEarlySetup, JsNum.oGtC, JsNum.oLtC]

/-- C1 amended: a candidate is emitted iff squeezeScore >= 2 or the early
setup marks the symbol, but the GPT advisory call is attempted exactly
when squeezeScore >= 2 (a passed gate with squeezeScore < 2 skips it);
the two concrete metric rows of the claim behave as stated. -/
theorem analyzeMetrics_gate_spec (m : AiScoring.SqueezeInput) :
    ((Scanner.analyzeMetricsGate m).emitted = true ↔
      2 ≤ (AiScoring.analyzeSqueezeCandidate m).score ∨
        (AiScoring.analyzeEarlySetup m).isEarlyCandidate = true) ∧
    ((Scanner.analyzeMetricsGate m).gptAttempted = true ↔
      2 ≤ (AiScoring.analyzeSqueezeCandidate m).score) ∧
    4 ≤ (AiScoring.analyzeSqueezeCandidate
      { rsi := some 35, shortFloat := some 25, volumeSpike := true,
        momentum := some (1 / 20) }).score ∧
    (Scanner.analyzeMetricsGate
      { rsi := some 35, shortFloat := some 25, volumeSpike := true,
        momentum := some (1 / 20) }).emitted = true ∧
    (AiScoring.analyzeSqueezeCandidate
      { rsi := some 60, shortFloat := some 5, volumeSpike := false,
        momentum := some 0 }).score < 2 ∧
    (AiScoring.analyzeEarlySetup
      { rsi := some 60, shortFloat := some 5, volumeSpike := false,
        momentum := some 0 }).isEarlyCandidate = false ∧
    (Scanner.analyzeMetricsGate
      { rsi := some 60, shortFloat := some 5, volumeSpike := false,
        momentum := some 0 }).emitted = false := by
  refine ⟨?_, ?_,
    by norm_num [AiScoring.analyzeSqueezeCandidate, JsNum.oGtC, JsNum.oLtC],
    by norm_num [Scanner.analyzeMetricsGate, AiScoring.analyzeSqueezeCandidate,
      AiScoring.analyzeEarlySetup, JsNum.oGtC, JsNum.oLtC],
    by norm_num [AiScoring.analyzeSqueezeCandidate, JsNum.oGtC, JsNum.oLtC],
    by norm_num [AiScoring.analyzeEarlySetup, JsNum.oGtC, JsNum.oLtC],
    by norm_num [Scanner.analyzeMetricsGate, AiScoring.analyzeSqueezeCandidate,
      AiScoring.analyzeEarlySetup, JsNum.oGtC, JsNum.oLtC]⟩
  · unfold Scanner.analyzeMetricsGate
    by_cases hc : (AiScoring.analyzeSqueezeCandidate m).score < 2 ∧
        (AiScoring.analyzeEarlySetup m).isEarlyCandidate = false
    · rw [if_pos hc]
      simp [not_le.2 hc.1, hc.2]
    · rw [if_neg hc]
      simp only [true_iff]
      rcases not_and_or.1 hc with h1 | h2
      · exact Or.inl (not_lt.1 h1)
      · exact Or.inr (by simpa using h2)
  · unfold Scanner.analyzeMetricsGate
    by_cases hc : (AiScoring.analyzeSqueezeCandidate m).score < 2 ∧
        (AiScoring.analyzeEarlySetup m).isEarlyCandidate = false
    · rw [if_pos hc]
      simp [not_le.2 hc.1]
    · rw [if_neg hc]
      simp

/-- Witness for analyzeMetrics_gate_spec at the passing metric row. -/
theorem analyzeMetrics_gate_spec_witness :
    (Scanner.analyzeMetricsGate
      { rsi := some 35, shortFloat := some 25, volumeSpike := true,
        momentum := some (1 / 20) }).gptAttempted = true := by
  have h := (analyzeMetrics_gate_spec
    { rsi := some 35, shortFloat := some 25, volumeSpike := true,
      momentum := some (1 / 20) }).2.1
  exact h.2 (by norm_num [AiScoring.analyzeSqueezeCandidate, JsNum.oGtC, JsNum.oLtC])

/-- C3: from an empty manager with limit 2, ensure A, ensure B, ensure C
leaves the queue as B then C; the third call issues exactly an
unsubscribe of A followed by a subscribe of C; the resulting state does
not depend on whether the unsubscribe succeeds; the subsequent ensure B
moves B to the back, issues no stream call and keeps the size at 2. -/
theorem subscription_trace_spec :
    (SubMgr.applyCalls (SubMgr.smEmpty 2)
      [("A", true, true), ("B", true, true), ("C", true, true)]).queue = ["B", "C"] ∧
    (SubMgr.ensure true true
      (SubMgr.applyCalls (SubMgr.smEmpty 2) [("A", true, true), ("B", true, true)]) "C").2
      = [SubMgr.Eff.unsub (some "A"), SubMgr.Eff.sub "C"] ∧
    (SubMgr.ensure true false
      (SubMgr.applyCalls (SubMgr.smEmpty 2) [("A", true, true), ("B", true, true)]) "C").1
      = (SubMgr.ensure true true
      (SubMgr.applyCalls (SubMgr.smEmpty 2) [("A", true, true), ("B", true, true)]) "C").1 ∧
    (SubMgr.ensure true true (SubMgr.applyCalls (SubMgr.smEmpty 2)
      [("A", true, true), ("B", true, true), ("C", true, true)]) "B").1.queue = ["C", "B"] ∧
    (SubMgr.ensure true true (SubMgr.applyCalls (SubMgr.smEmpty 2)
      [("A", true, true), ("B", true, true), ("C", true, true)]) "B").2 = [] ∧
    (SubMgr.ensure true true (SubMgr.applyCalls (SubMgr.smEmpty 2)
      [("A", true, true), ("B", true, true), ("C", true, true)]) "B").1.queue.length
      = (SubMgr.applyCalls (SubMgr.smEmpty 2)
      [("A", true, true), ("B", true, true), ("C", true, true)]).queue.length := by
  decide

/-- C5 counterexample: on [3, 7], calculateMomentum returns 1.3333, the
toFixed(4) rounding of 4/3, not (7 - 3) / 3 itself. -/
theorem calculateMomentum_counterexample :
    Technicals.calculateMomentum [3, 7] ≠ ((7 : ℚ) - 3) / 3 := by
  norm_num [Technicals.calculateMomentum, JsNum.jsToFixed]

/-- C5 amended: for any series of length at least 2, the series-form
calculateMomentum returns (lastClose - prevClose) / prevClose rounded to
4 decimal places by toFixed, with lastClose the final element; the
server-utils variant instead reads the first two entries, returning
(prices[0] - prices[1]) / prices[1] rounded the same way. -/
theorem calculateMomentum_spec :
    (∀ (l : List ℚ) (a b : ℚ),
      Technicals.calculateMomentum (l ++ [a, b]) = JsNum.jsToFixed 4 ((b - a) / a)) ∧
    (∀ (l : List ℚ) (a b : ℚ),
      TechnicalsUtil.calculateMomentum (a :: b :: l) = JsNum.jsToFixed 4 ((a - b) / b)) := by
  constructor
  · intro l a b
    have hlen : (l ++ [a, b]).length = l.length + 2 := by simp
    have hnot : ¬ (l ++ [a, b]).length < 2 := by omega
    have hb : (l ++ [a, b]).getD ((l ++ [a, b]).length - 1) 0 = b := by
      rw [hlen]
      rw [List.getD_append_right l [a, b] 0 _ (by omega)]
      simp
    have ha : (l ++ [a, b]).getD ((l ++ [a, b]).length - 2) 0 = a := by
      rw [hlen]
      rw [List.getD_append_right l [a, b] 0 _ (by omega)]
      simp
    unfold Technicals.calculateMomentum
    rw [if_neg hnot, hb, ha]
  · intro l a b
    rfl

/-- Witness for calculateMomentum_spec on the two-element series. -/
theorem calculateMomentum_spec_witness :
    Technicals.calculateMomentum [3, 7] = JsNum.jsToFixed 4 (((7 : ℚ) - 3) / 3) ∧
    TechnicalsUtil.calculateMomentum [3, 7] = JsNum.jsToFixed 4 (((3 : ℚ) - 7) / 7) :=
  ⟨calculateMomentum_spec.1 [] 3 7, calculateMomentum_spec.2 [] 3 7⟩


/-- Helper for C2: appending a fresh symbol to matched queue and set
preserves the invariant as long as one slot is free. -/
theorem submgr_add_inv (limit : ℕ) (q s : List String) (sym : String)
    (hqn : q.Nodup) (hsn : s.Nodup) (hlen : q.length = s.length)
    (hmem : ∀ x, x ∈ q ↔ x ∈ s) (hcap : q.length + 1 ≤ limit) (hnew : sym ∉ s) :
    SubMgr.Inv { limit := limit, queue := q ++ [sym], sset := SubMgr.setAdd s sym } := by
  have hnewq : sym ∉ q := fun hq => hnew ((hmem sym).1 hq)
  have hadd : SubMgr.setAdd s sym = s ++ [sym] := by
    unfold SubMgr.setAdd
    rw [if_neg hnew]
  refine ⟨?_, ?_, ?_, ?_, ?_⟩
  · simp [List.nodup_append, hqn, hnewq]
  · simp [hadd, List.nodup_append, hsn, hnew]
  · simp [hadd, hlen]
  · intro x
    simp [hadd, hmem x]
  · simpa using hcap

/-- Helper for C2: the eviction step keeps the two containers matched and
leaves at least one free slot below the capacity. -/
theorem evictIfFull_spec (st : SubMgr.SMState) (hl : 1 ≤ st.limit) (h : SubMgr.Inv st) :
    (SubMgr.evictIfFull st).1.limit = st.limit ∧
    (SubMgr.evictIfFull st).1.queue.Nodup ∧
    (SubMgr.evictIfFull st).1.sset.Nodup ∧
    (SubMgr.evictIfFull st).1.queue.length = (SubMgr.evictIfFull st).1.sset.length ∧
    (∀ x, x ∈ (SubMgr.evictIfFull st).1.queue ↔ x ∈ (SubMgr.evictIfFull st).1.sset) ∧
    (SubMgr.evictIfFull st).1.queue.length + 1 ≤ st.limit ∧
    (∀ x, x ∈ (SubMgr.evictIfFull st).1.sset → x ∈ st.sset) := by
  obtain ⟨hqn, hsn, hlen, hmem, hcap⟩ := h
  unfold SubMgr.evictIfFull
  by_cases hfull : st.limit ≤ st.queue.length
  · rw [if_pos hfull]
    cases hq : st.queue with
    | nil =>
        exfalso
        rw [hq] at hfull
        simp at hfull
        omega
    | cons oldest rest =>
        dsimp only
        rw [hq] at hqn hlen hmem hcap
        have holdset : oldest ∈ st.sset := (hmem oldest).1 (List.mem_cons_self _ _)
        have hpos : 0 < st.sset.length := List.length_pos_of_mem holdset
        have hrest_nodup : rest.Nodup := hqn.of_cons
        have hold_notin_rest : oldest ∉ rest := (List.nodup_cons.1 hqn).1
        simp only [List.length_cons] at hlen hcap
        refine ⟨rfl, hrest_nodup, hsn.erase oldest, ?_, ?_, ?_, ?_⟩
        · rw [List.length_erase_of_mem holdset]
          omega
        · intro x
          rw [hsn.mem_erase_iff]
          constructor
          · intro hx
            refine ⟨fun hxo => ?_, (hmem x).1 (List.mem_cons_of_mem _ hx)⟩
            subst hxo
            exact hold_notin_rest hx
          · rintro ⟨hxo, hxs⟩
            rcases List.mem_cons.1 ((hmem x).2 hxs) with h1 | h1
            · exact absurd h1 hxo
            · exact h1
        · omega
        · intro x hx
          exact List.mem_of_mem_erase hx
  · rw [if_neg hfull]
    dsimp only
    exact ⟨rfl, hqn, hsn, hlen, hmem, by omega, fun x hx => hx⟩

/-- Helper for C2: the subscribe step preserves the invariant whether or
not the wsSubscribe call succeeds. -/
theorem subscribeNew_inv (subOk : Bool) (st : SubMgr.SMState) (sym : String)
    (effs : List SubMgr.Eff)
    (hqn : st.queue.Nodup) (hsn : st.sset.Nodup)
    (hlen : st.queue.length = st.sset.length)
    (hmem : ∀ x, x ∈ st.queue ↔ x ∈ st.sset)
    (hroom : st.queue.length + 1 ≤ st.limit) (hnew : sym ∉ st.sset) :
    SubMgr.Inv (SubMgr.subscribeNew subOk st sym effs).1 ∧
      (SubMgr.subscribeNew subOk st sym effs).1.limit = st.limit := by
  unfold SubMgr.subscribeNew
  by_cases hsub : subOk = true
  · rw [if_pos hsub]
    exact ⟨submgr_add_inv st.limit st.queue st.sset sym hqn hsn hlen hmem hroom hnew, rfl⟩
  · rw [if_neg hsub]
    dsimp only
    exact ⟨⟨hqn, hsn, hlen, hmem, by omega⟩, rfl⟩

/-- Helper for C2: one ensure call preserves the invariant (for positive
capacity) and never changes the capacity field. -/
theorem ensure_inv (subOk unsubOk : Bool) (st : SubMgr.SMState) (sym : String)
    (hl : 1 ≤ st.limit) (h : SubMgr.Inv st) :
    SubMgr.Inv (SubMgr.ensure subOk unsubOk st sym).1 ∧
      (SubMgr.ensure subOk unsubOk st sym).1.limit = st.limit := by
  obtain ⟨hqn, hsn, hlen, hmem, hcap⟩ := h
  by_cases hin : sym ∈ st.sset
  · have he : SubMgr.ensure subOk unsubOk st sym = (SubMgr.touch st sym, []) := by
      unfold SubMgr.ensure
      rw [if_pos hin]
    rw [he]
    have hsymq : sym ∈ st.queue := (hmem sym).2 hin
    have ht : SubMgr.touch st sym = { st with queue := st.queue.erase sym ++ [sym] } := by
      unfold SubMgr.touch
      rw [if_pos hsymq]
    rw [ht]
    have hnotmem : sym ∉ st.queue.erase sym := fun hx => ((hqn.mem_erase_iff).1 hx).1 rfl
    have hq1 : 0 < st.queue.length := List.length_pos_of_mem hsymq
    refine ⟨⟨?_, hsn, ?_, ?_, ?_⟩, rfl⟩
    · refine (hqn.erase sym).append (List.nodup_singleton sym) ?_
      intro a ha hb
      rw [List.mem_singleton] at hb
      subst hb
      exact hnotmem ha
    · rw [List.length_append, List.length_erase_of_mem hsymq]
      simp only [List.length_singleton]
      omega
    · intro x
      by_cases hxs : x = sym
      · subst hxs
        simp [hin]
      · simp only [List.mem_append, List.mem_singleton, hxs, or_false]
        rw [hqn.mem_erase_iff]
        simp [hxs, hmem x]
    · rw [List.length_append, List.length_erase_of_mem hsymq]
      simp only [List.length_singleton]
      omega
  · have he : SubMgr.ensure subOk unsubOk st sym =
        SubMgr.subscribeNew subOk (SubMgr.evictIfFull st).1 sym (SubMgr.evictIfFull st).2 := by
      unfold SubMgr.ensure
      rw [if_neg hin]
    rw [he]
    obtain ⟨hliml, hqn1, hsn1, hlen1, hmem1, hroom1, hsub1⟩ :=
      evictIfFull_spec st hl ⟨hqn, hsn, hlen, hmem, hcap⟩
    have hnew1 : sym ∉ (SubMgr.evictIfFull st).1.sset := fun hx => hin (hsub1 sym hx)
    have hmain := subscribeNew_inv subOk (SubMgr.evictIfFull st).1 sym
      (SubMgr.evictIfFull st).2 hqn1 hsn1 hlen1 hmem1 (by omega) hnew1
    exact ⟨hmain.1, by rw [hmain.2, hliml]⟩

/-- Helper for C2: the invariant is preserved along any call sequence. -/
theorem applyCalls_inv (calls : List (String × Bool × Bool)) :
    ∀ st : SubMgr.SMState, 1 ≤ st.limit → SubMgr.Inv st →
      SubMgr.Inv (SubMgr.applyCalls st calls) := by
  induction calls with
  | nil => intro st _ h; exact h
  | cons c rest ih =>
      intro st hl h
      obtain ⟨sym, subOk, unsubOk⟩ := c
      have step := ensure_inv subOk unsubOk st sym hl h
      exact ih _ (by rw [step.2]; exact hl) step.1

/-- C2: starting from the empty manager with any positive capacity, after
any sequence of ensure calls with arbitrary subscribe and unsubscribe
outcomes, the queue has no duplicates, queue and set have the same size
and the same members, and the size never exceeds the capacity. -/
theorem subscription_invariant (limit : ℕ) (hl : 1 ≤ limit)
    (calls : List (String × Bool × Bool)) :
    SubMgr.Inv (SubMgr.applyCalls (SubMgr.smEmpty limit) calls) := by
  refine applyCalls_inv calls (SubMgr.smEmpty limit) hl ?_
  exact ⟨List.nodup_nil, List.nodup_nil, rfl, fun x => Iff.rfl, by simp [SubMgr.smEmpty]⟩

/-- Witness for subscription_invariant: a concrete sequence with a failed
subscribe and a failed unsubscribe at capacity 2. -/
theorem subscription_invariant_witness :
    SubMgr.Inv (SubMgr.applyCalls (SubMgr.smEmpty 2)
      [("A", true, true), ("B", false, true), ("C", true, false), ("A", true, true)]) :=
  subscription_invariant 2 (by decide)
    [("A", true, true), ("B", false, true), ("C", true, false), ("A", true, true)]

/-- Helper: deltas has one entry less than its input. -/
theorem deltas_length (l : List ℚ) : (Technicals.deltas l).length = l.length - 1 := by
  simp only [Technicals.deltas, List.length_zipWith, List.length_tail]
  omega

/-- Helper for C4: on a strictly increasing series every delta is positive. -/
theorem deltas_pos : ∀ (l : List ℚ), List.Chain' (· < ·) l →
    ∀ d ∈ Technicals.deltas l, 0 < d
  | [], _, d, hd => by simp [Technicals.deltas] at hd
  | [_], _, d, hd => by simp [Technicals.deltas] at hd
  | a :: b :: t, h, d, hd => by
      have hd2 : Technicals.deltas (a :: b :: t) = (b - a) :: Technicals.deltas (b :: t) := rfl
      rw [hd2] at hd
      obtain ⟨hab, ht⟩ := List.chain'_cons.1 h
      rcases List.mem_cons.1 hd with h1 | h1
      · rw [h1]
        linarith
      · exact deltas_pos (b :: t) ht d h1

/-- Helper for C4: the Wilder loop keeps a zero average loss at zero as
long as every remaining change is positive. -/
theorem scanl_snd_zero (period : ℕ) : ∀ (ds : List ℚ) (g : ℚ), (∀ c ∈ ds, 0 < c) →
    ∀ s ∈ List.scanl (Technicals.wilderStep period) (g, 0) ds, s.2 = 0
  | [], g, _ => by
      intro s hs
      simp only [List.scanl_nil, List.mem_singleton] at hs
      rw [hs]
  | c :: cs, g, h => by
      intro s hs
      rw [List.scanl_cons] at hs
      have hc : 0 < c := h c (List.mem_cons_self _ _)
      rcases List.mem_cons.1 hs with h1 | h1
      · rw [h1]
      · have hstep : Technicals.wilderStep period (g, 0) c =
            ((g * ((period : ℚ) - 1) + c) / period, 0) := by
          unfold Technicals.wilderStep
          rw [if_pos hc, if_neg (not_lt.2 hc.le)]
          norm_num
        rw [hstep] at h1
        exact scanl_snd_zero period cs ((g * ((period : ℚ) - 1) + c) / period)
          (fun x hx => h x (List.mem_cons_of_mem _ hx)) s h1

/-- Helper: the written RSI value is 100 whenever the average loss is 0. -/
theorem rsiVal_of_snd_zero (s : ℚ × ℚ) (h : s.2 = 0) : Technicals.rsiVal s = 100 := by
  unfold Technicals.rsiVal
  rw [if_pos h]

/-- C4: for a strictly increasing close series of length at least
period+1 (positive period), every null of the RSI series sits below index
period and every defined entry equals 100: the output is exactly period
nulls followed by the value 100 at index period and at every later index. -/
theorem rsi_monotone_100 (prices : List ℚ) (period : ℕ) (hp : 1 ≤ period)
    (hlen : period + 1 ≤ prices.length) (hmono : List.Chain' (· < ·) prices) :
    Technicals.calculateRSI prices period =
      List.replicate period none ++
        List.replicate (prices.length - period) (some (100 : ℚ)) := by
  have hds : ∀ d ∈ Technicals.deltas prices, 0 < d := deltas_pos prices hmono
  have hloss : (((Technicals.deltas prices).take period).map
      (fun c => if 0 ≤ c then 0 else -c)).sum = 0 := by
    rw [list_map_const _ _ (0 : ℚ) (fun x hx => by
      rw [if_pos (hds x (List.mem_of_mem_take hx)).le])]
    simp
  unfold Technicals.calculateRSI
  rw [if_neg (by omega)]
  simp only [hloss, zero_div]
  congr 1
  have hall : ∀ s ∈ List.scanl (Technicals.wilderStep period)
      ((((Technicals.deltas prices).take period).map
        (fun c => if 0 ≤ c then c else 0)).sum / period, 0)
      ((Technicals.deltas prices).drop period), s.2 = 0 :=
    scanl_snd_zero period _ _ (fun c hc => hds c (List.mem_of_mem_drop hc))
  rw [list_map_const _ _ (some (100 : ℚ))
    (fun s hs => by rw [rsiVal_of_snd_zero s (hall s hs)])]
  rw [List.length_scanl, List.length_drop, deltas_length]
  congr 1
  omega

/-- Witness for rsi_monotone_100 on the series 1, 2, 3 with period 2. -/
theorem rsi_monotone_100_witness :
    Technicals.calculateRSI [1, 2, 3] 2 =
      List.replicate 2 none ++ List.replicate 1 (some (100 : ℚ)) := by
  have h := rsi_monotone_100 [1, 2, 3] 2 (by norm_num) (by simp)
    (by norm_num [List.chain'_cons, List.chain'_singleton])
  simpa using h

/-- C6 counterexample: a series of length 2 meets length >= period for
period 2, yet calculateRSI returns the empty array because it requires
length >= period + 1. -/
theorem windowed_counterexample :
    (2 : ℕ) ≤ ([1, 2] : List ℚ).length ∧ Technicals.calculateRSI [1, 2] 2 = [] := by
  exact ⟨by simp, rfl⟩

/-- Helper for C6: calculateEMA either rejects its input or preserves the
input length. -/
theorem ema_length_cases (arr : List ℚ) (period : ℕ) (hp : 1 ≤ period) :
    Technicals.calculateEMA arr period = [] ∨
      (Technicals.calculateEMA arr period).length = arr.length := by
  unfold Technicals.calculateEMA
  by_cases hg : arr.length < period
  · rw [if_pos hg]
    exact Or.inl rfl
  · rw [if_neg hg]
    right
    simp only [List.length_append, List.length_replicate, List.length_map,
      List.length_scanl, List.length_drop]
    omega

/-- C6 amended: the windowed indicators are total, but the delta-based
ones need one bar more than the period.  RSI and ATR return a full-length
series when the input length is at least period+1 and the empty array
below that; EMA, Bollinger and Donchian return full length from length
period upward and empty below; MACD needs 26 closes.  No input throws:
each function is a total function of its input. -/
theorem windowed_totality_spec :
    (∀ (prices : List ℚ) (period : ℕ), period + 1 ≤ prices.length →
      (Technicals.calculateRSI prices period).length = prices.length) ∧
    (∀ (prices : List ℚ) (period : ℕ), prices.length < period + 1 →
      Technicals.calculateRSI prices period = []) ∧
    (∀ (arr : List ℚ) (period : ℕ), 1 ≤ period → period ≤ arr.length →
      (Technicals.calculateEMA arr period).length = arr.length) ∧
    (∀ (arr : List ℚ) (period : ℕ), arr.length < period →
      Technicals.calculateEMA arr period = []) ∧
    (∀ prices : List ℚ, 26 ≤ prices.length →
      (Technicals.calculateMACD prices).macdLine.length = prices.length ∧
      (Technicals.calculateMACD prices).signalLine.length = prices.length) ∧
    (∀ prices : List ℚ, prices.length < 26 →
      (Technicals.calculateMACD prices).macdLine = [] ∧
      (Technicals.calculateMACD prices).signalLine = []) ∧
    (∀ (highs lows closes : List ℚ) (period : ℕ),
      lows.length = highs.length → closes.length = highs.length →
      period + 1 ≤ highs.length →
      (Technicals.calculateATR highs lows closes period).length = highs.length) ∧
    (∀ (highs lows closes : List ℚ) (period : ℕ), highs.length < period + 1 →
      Technicals.calculateATR highs lows closes period = []) ∧
    (∀ (prices : List ℚ) (period : ℕ) (k : ℚ), period ≤ prices.length →
      (Technicals.calculateBollingerBands prices period k).length = prices.length) ∧
    (∀ (prices : List ℚ) (period : ℕ) (k : ℚ), prices.length < period →
      Technicals.calculateBollingerBands prices period k = []) ∧
    (∀ (highs lows : List ℚ) (period : ℕ), period ≤ highs.length → period ≤ lows.length →
      (Technicals.calculateDonchian highs lows period).length = highs.length) ∧
    (∀ (highs lows : List ℚ) (period : ℕ), highs.length < period ∨ lows.length < period →
      Technicals.calculateDonchian highs lows period = []) := by
  have hEMAempty : ∀ (arr : List ℚ) (period : ℕ), arr.length < period →
      Technicals.calculateEMA arr period = [] := by
    intro arr period h
    unfold Technicals.calculateEMA
    rw [if_pos h]
  refine ⟨?_, ?_, ?_, hEMAempty, ?_, ?_, ?_, ?_, ?_, ?_, ?_, ?_⟩
  · intro prices period h
    unfold Technicals.calculateRSI
    rw [if_neg (by omega)]
    simp only [List.length_append, List.length_replicate, List.length_map,
      List.length_scanl, List.length_drop, deltas_length]
    omega
  · intro prices period h
    unfold Technicals.calculateRSI
    rw [if_pos (by omega)]
  · intro arr period hp h
    unfold Technicals.calculateEMA
    rw [if_neg (by omega)]
    simp only [List.length_append, List.length_replicate, List.length_map,
      List.length_scanl, List.length_drop]
    omega
  · intro prices h26
    unfold Technicals.calculateMACD
    rw [if_neg (by omega)]
    dsimp only
    constructor
    · simp
    · rw [List.length_append, List.length_replicate, List.length_map, List.length_range]
      have hv : (((List.range prices.length).map (fun idx =>
          match (Technicals.calculateEMA prices 12).getD idx none,
                (Technicals.calculateEMA prices 26).getD idx none with
          | some a, some b => some (a - b)
          | _, _ => none)).filterMap id).length ≤ prices.length := by
        calc (((List.range prices.length).map _).filterMap id).length
            ≤ ((List.range prices.length).map _).length := List.length_filterMap_le _ _
          _ = prices.length := by simp
      rcases ema_length_cases (((List.range prices.length).map (fun idx =>
          match (Technicals.calculateEMA prices 12).getD idx none,
                (Technicals.calculateEMA prices 26).getD idx none with
          | some a, some b => some (a - b)
          | _, _ => none)).filterMap id) 9 (by norm_num) with he | he
      · rw [he]
        simp
      · rw [he]
        omega
  · intro prices h26
    unfold Technicals.calculateMACD
    rw [if_pos h26]
    exact ⟨rfl, rfl⟩
  · intro highs lows closes period hlh hch h
    unfold Technicals.calculateATR
    rw [if_neg (by omega)]
    simp only [List.length_append, List.length_replicate, List.length_map,
      List.length_scanl, List.length_drop, List.length_zipWith, List.length_tail]
    omega
  · intro highs lows closes period h
    unfold Technicals.calculateATR
    rw [if_pos (Or.inl h)]
  · intro prices period k h
    unfold Technicals.calculateBollingerBands
    rw [if_neg (by omega)]
    simp
  · intro prices period k h
    unfold Technicals.calculateBollingerBands
    rw [if_pos h]
  · intro highs lows period h1 h2
    unfold Technicals.calculateDonchian
    rw [if_neg (by omega)]
    simp
  · intro highs lows period h
    unfold Technicals.calculateDonchian
    rw [if_pos h]

/-- Witness for windowed_totality_spec at concrete inputs meeting and
missing each requirement. -/
theorem windowed_totality_spec_witness :
    (Technicals.calculateRSI [1, 2, 3] 2).length = 3 ∧
    Technicals.calculateRSI [1, 2] 3 = [] ∧
    (Technicals.calculateEMA [1, 2] 2).length = 2 ∧
    Technicals.calculateEMA [1, 2] 3 = [] ∧
    (Technicals.calculateBollingerBands [1, 2] 2 2).length = 2 ∧
    (Technicals.calculateDonchian [1, 2] [0, 1] 2).length = 2 ∧
    Technicals.calculateATR [1] [1] [1] 14 = [] := by
  refine ⟨?_, ?_, ?_, ?_, ?_, ?_, ?_⟩
  · simpa using windowed_totality_spec.1 [1, 2, 3] 2 (by simp)
  · exact windowed_totality_spec.2.1 [1, 2] 3 (by simp)
  · simpa using windowed_totality_spec.2.2.1 [1, 2] 2 (by norm_num) (by simp)
  · exact windowed_totality_spec.2.2.2.1 [1, 2] 3 (by simp)
  · simpa using windowed_totality_spec.2.2.2.2.2.2.2.2.1 [1, 2] 2 2 (by simp)
  · simpa using windowed_totality_spec.2.2.2.2.2.2.2.2.2.2.1 [1, 2] [0, 1] 2
      (by simp) (by simp)
  · exact windowed_totality_spec.2.2.2.2.2.2.2.1 [1] [1] [1] 14 (by simp)

/-- C8 counterexample: with all properties absent the four indicator
arrays are undefined, and scoreTicker throws a TypeError reading their
length instead of returning a totalScore. -/
theorem scoreTicker_counterexample :
    AiScoring.scoreTicker AiScoring.emptyTicker =
      Except.error "TypeError: reading length of undefined" := rfl

/-- C8 amended: whenever the four indicator arrays ema10, ema50, macdLine
and signalLine are present, scoreTicker returns a totalScore (a genuine
rational, no NaN), and each missing scalar component zeroes its
sub-score; but when one of the four arrays is absent scoreTicker throws
instead of returning. -/
theorem scoreTicker_spec (d : AiScoring.TickerData)
    (h10 : d.ema10.isSome = true) (h50 : d.ema50.isSome = true)
    (hml : d.macdLine.isSome = true) (hsl : d.signalLine.isSome = true) :
    ∃ r, AiScoring.scoreTicker d = Except.ok r ∧
      (d.rsi = none → r.metrics.rsiScore = 0) ∧
      (d.momentum = none → r.metrics.momScore = 0) ∧
      (d.volume = none → r.metrics.volScore = 0 ∧ r.metrics.spikeScore = 0) ∧
      (d.volumeSpike = none → r.metrics.spikeScore = 0 ∧
        r.metrics.breakout = false ∧ r.metrics.bounce = false) ∧
      (d.floatPercent = none → r.metrics.floatScore = 0) ∧
      (d.shortPercent = none → r.metrics.shortScore = 0) ∧
      (d.revenueGrowth = none → d.debtToEquity = none →
        d.epsTrailingTwelveMonths = none → r.metrics.fundScore = 0) ∧
      (d.newsCount = none → r.metrics.newsScore = 0) ∧
      (d.socialSentiment = none → r.metrics.sentimentScore = 0) ∧
      (d.preMarketChange = none → r.metrics.preMktScore = 0) ∧
      (d.preMarketVolSpike = none → r.metrics.preMktVolScore = 0) ∧
      (d.atr14 = none → r.metrics.atrScore = 0) ∧
      (d.bollinger = none → r.metrics.bollScore = 0) ∧
      (d.donchian = none → r.metrics.donchScore = 0) := by
  rcases Option.isSome_iff_exists.1 h10 with ⟨e10, he10⟩
  rcases Option.isSome_iff_exists.1 h50 with ⟨e50, he50⟩
  rcases Option.isSome_iff_exists.1 hml with ⟨ml, heml⟩
  rcases Option.isSome_iff_exists.1 hsl with ⟨sl, hesl⟩
  unfold AiScoring.scoreTicker
  rw [he10, he50, heml, hesl]
  refine ⟨_, rfl, ?_, ?_, ?_, ?_, ?_, ?_, ?_, ?_, ?_, ?_, ?_, ?_, ?_, ?_⟩
  · intro h
    simp [h]
  · intro h
    simp [h, AiScoring.norm]
  · intro h
    simp [h, AiScoring.norm]
  · intro h
    simp [h, JsNum.truthy, JsNum.oGtC]
  · intro h
    simp [h, JsNum.oGeC, JsNum.oLeC, JsNum.oGtC]
  · intro h
    simp [h, JsNum.oGeC]
  · intro h1 h2 h3
    simp [h1, h2, h3, AiScoring.fundScoreOf]
  · intro h
    simp [h, AiScoring.newsScoreOf]
  · intro h
    simp [h, AiScoring.sentimentScoreOf]
  · intro h
    simp [h, AiScoring.preMktScoreOf]
  · intro h
    simp [h, AiScoring.preMktVolScoreOf]
  · intro h
    simp [h, AiScoring.atrScoreOf]
  · intro h
    simp [h, AiScoring.bollScoreOf]
  · intro h
    simp [h, AiScoring.donchScoreOf]

/-- Witness for scoreTicker_spec: with the arrays present and empty and
every scalar absent, a totalScore is returned. -/
theorem scoreTicker_spec_witness :
    ∃ r, AiScoring.scoreTicker AiScoring.arraysOnlyTicker = Except.ok r := by
  obtain ⟨r, hr, _⟩ := scoreTicker_spec AiScoring.arraysOnlyTicker rfl rfl rfl rfl
  exact ⟨r, hr⟩

/-- Helper for C9: the candidate insert loop either appends every row
with the shared timestamp or reports an error. -/
theorem insertAll_spec {α : Type} (fail : α → Bool) (now : String) :
    ∀ (items : List α) (db : Db.DBState α),
      Db.insertAll fail now items db =
        Except.ok { candidates := db.candidates ++
                      items.map (fun it => { item := it, timestamp := now }),
                    history := db.history } ∨
      ∃ e, Db.insertAll fail now items db = Except.error e := by
  intro items
  induction items with
  | nil =>
      intro db
      left
      simp [Db.insertAll]
  | cons it rest ih =>
      intro db
      simp only [Db.insertAll, Db.insertCandidate]
      by_cases hf : fail it = true
      · rw [if_pos hf]
        right
        exact ⟨_, rfl⟩
      · rw [if_neg hf]
        dsimp only
        rcases ih { db with candidates := db.candidates ++ [{ item := it, timestamp := now }] }
          with h | ⟨e, h⟩
        · left
          rw [h]
          simp
        · right
          exact ⟨e, h⟩

/-- C9: persistence of a cycle is atomic.  Either saveResults succeeds
and the database gains exactly one row per candidate, all stamped with
the single cycle timestamp, plus the history row with that same
timestamp, and no error is logged; or the database is left exactly as it
was and the failure is logged by the catch arm in runFullScan. -/
theorem saveResults_atomic {α : Type} (fail : α → Bool) (failHist : Bool) (now : String)
    (items : List α) (db : Db.DBState α) :
    Db.runPersistPhase fail failHist now items db =
      ({ candidates := db.candidates ++
           items.map (fun it => { item := it, timestamp := now }),
         history := db.history ++ [(now, items.length)] }, false) ∨
    Db.runPersistPhase fail failHist now items db = (db, true) := by
  unfold Db.runPersistPhase Db.saveResults Db.transaction
  dsimp only
  rcases insertAll_spec fail now items db with h | ⟨e, h⟩
  · rw [h]
    dsimp only
    unfold Db.insertHistory
    by_cases hh : failHist = true
    · rw [if_pos hh]
      right
      rfl
    · rw [if_neg hh]
      left
      rfl
  · rw [h]
    right
    rfl

/-- C10 counterexample: phase 3 of runFullScan assigns the options
fields onto the candidate object in place, so the candidate observed
after the options phase differs from the candidate the scoring phase
produced. -/
theorem candidate_mutation_counterexample :
    (Scanner.optionsPhaseStep (some Scanner.sampleOptions) Scanner.sampleCandidate).callPick ≠
      Scanner.sampleCandidate.callPick := by
  simp [Scanner.optionsPhaseStep, Scanner.injectOptions, Scanner.sampleOptions,
    Scanner.sampleCandidate]

/-- C10 amended: the candidate is mutated exactly once after scoring: the
options phase overwrites only the eight option-analysis fields, and every
field produced by the scoring phase is preserved; a failed options call
leaves the candidate untouched; (the sanitized copy is then written once,
per the persistence phase model). -/
theorem candidate_frame_spec (c : Scanner.Candidate) (o : Scanner.OptionsResult) :
    ((Scanner.injectOptions c o).symbol = c.symbol ∧
     (Scanner.injectOptions c o).price = c.price ∧
     (Scanner.injectOptions c o).volume = c.volume ∧
     (Scanner.injectOptions c o).rsi = c.rsi ∧
     (Scanner.injectOptions c o).momentum = c.momentum ∧
     (Scanner.injectOptions c o).volumeSpike = c.volumeSpike ∧
     (Scanner.injectOptions c o).support = c.support ∧
     (Scanner.injectOptions c o).resistance = c.resistance ∧
     (Scanner.injectOptions c o).floatPercent = c.floatPercent ∧
     (Scanner.injectOptions c o).shortFloat = c.shortFloat ∧
     (Scanner.injectOptions c o).preMarketChange = c.preMarketChange ∧
     (Scanner.injectOptions c o).preMarketVolSpike = c.preMarketVolSpike ∧
     (Scanner.injectOptions c o).ema10 = c.ema10 ∧
     (Scanner.injectOptions c o).ema50 = c.ema50 ∧
     (Scanner.injectOptions c o).macdLine = c.macdLine ∧
     (Scanner.injectOptions c o).signalLine = c.signalLine ∧
     (Scanner.injectOptions c o).atr14 = c.atr14 ∧
     (Scanner.injectOptions c o).bollinger = c.bollinger ∧
     (Scanner.injectOptions c o).donchian = c.donchian ∧
     (Scanner.injectOptions c o).fundamentals = c.fundamentals ∧
     (Scanner.injectOptions c o).avg20Volume = c.avg20Volume ∧
     (Scanner.injectOptions c o).daysToCover = c.daysToCover ∧
     (Scanner.injectOptions c o).score = c.score ∧
     (Scanner.injectOptions c o).earlyCandidate = c.earlyCandidate ∧
     (Scanner.injectOptions c o).setupScore = c.setupScore ∧
     (Scanner.injectOptions c o).suggestion = c.suggestion ∧
     (Scanner.injectOptions c o).summary = c.summary ∧
     (Scanner.injectOptions c o).action = c.action ∧
     (Scanner.injectOptions c o).actionRationale = c.actionRationale ∧
     (Scanner.injectOptions c o).buyPrice = c.buyPrice ∧
     (Scanner.injectOptions c o).sellPrice = c.sellPrice ∧
     (Scanner.injectOptions c o).isDayTradeCandidate = c.isDayTradeCandidate ∧
     (Scanner.injectOptions c o).dayTradeBuyPrice = c.dayTradeBuyPrice ∧
     (Scanner.injectOptions c o).dayTradeSellPrice = c.dayTradeSellPrice ∧
     (Scanner.injectOptions c o).longBuyPrice = c.longBuyPrice ∧
     (Scanner.injectOptions c o).longSellPrice = c.longSellPrice ∧
     (Scanner.injectOptions c o).reasons = c.reasons ∧
     (Scanner.injectOptions c o).setupReasons = c.setupReasons ∧
     (Scanner.injectOptions c o).totalScore = c.totalScore ∧
     (Scanner.injectOptions c o).combinedReasons = c.combinedReasons ∧
     (Scanner.injectOptions c o).metrics = c.metrics ∧
     (Scanner.injectOptions c o).isTopPick = c.isTopPick) ∧
    ((Scanner.injectOptions c o).callPick = o.callPick ∧
     (Scanner.injectOptions c o).callAction = o.callAction ∧
     (Scanner.injectOptions c o).callRationale = o.callRationale ∧
     (Scanner.injectOptions c o).callExitPlan = o.callExitPlan ∧
     (Scanner.injectOptions c o).putPick = o.putPick ∧
     (Scanner.injectOptions c o).putAction = o.putAction ∧
     (Scanner.injectOptions c o).putRationale = o.putRationale ∧
     (Scanner.injectOptions c o).putExitPlan = o.putExitPlan) ∧
    Scanner.optionsPhaseStep none c = c := by
  refine ⟨⟨rfl, rfl, rfl, rfl, rfl, rfl, rfl, rfl, rfl, rfl, rfl, rfl, rfl, rfl,
    rfl, rfl, rfl, rfl, rfl, rfl, rfl, rfl, rfl, rfl, rfl, rfl, rfl, rfl, rfl,
    rfl, rfl, rfl, rfl, rfl, rfl, rfl, rfl, rfl, rfl, rfl, rfl, rfl⟩,
    ⟨rfl, rfl, rfl, rfl, rfl, rfl, rfl, rfl⟩, rfl⟩

/-- Witness for candidate_frame_spec at the sample candidate and options. -/
theorem candidate_frame_spec_witness :
    (Scanner.injectOptions Scanner.sampleCandidate Scanner.sampleOptions).symbol =
      Scanner.sampleCandidate.symbol :=
  (candidate_frame_spec Scanner.sampleCandidate Scanner.sampleOptions).1.1
